import Mathlib

/-!
Shallow embedding of the synchronization core of the
`home_assistant_sync` integration (files `auth.py`, `server.py`,
`client.py`, `light.py`, `const.py`), together with proofs that settle
the frozen claims C1..C10 about it.

Conventions of the embedding:
* Python dicts become association lists with the dict operations
  `dictGet`, `dictContains`, `dictInsert`, `dictErase` (a dict holds at
  most one binding per key; `dictInsert` replaces, `dictErase` drops the
  key entirely).
* JWTs (PyJWT with HS256) are modelled symbolically: a signed token
  carries its payload and the secret it was signed with; signature
  verification succeeds exactly when the verifying secret equals the
  signing secret.  Time is a `Nat` (seconds); `exp <= now` is expired.
* `async` functions become pure state-passing functions; the outcome of
  an awaited external event (a host service call, a duplex send, the
  wait for a correlated response) is an explicit argument.
-/

namespace HASync

/-! ### Dict operations (Python dict semantics on association lists) -/

def dictGet {κ α : Type} [BEq κ] : List (κ × α) → κ → Option α
  | [], _ => none
  | p :: rest, k => if p.1 == k then some p.2 else dictGet rest k

def dictContains {κ α : Type} [BEq κ] (l : List (κ × α)) (k : κ) : Bool :=
  l.any (fun p => p.1 == k)

def dictErase {κ α : Type} [BEq κ] (l : List (κ × α)) (k : κ) : List (κ × α) :=
  l.filter (fun p => p.1 != k)

def dictInsert {κ α : Type} [BEq κ] (l : List (κ × α)) (k : κ) (v : α) : List (κ × α) :=
  dictErase l k ++ [(k, v)]

theorem dictContains_dictErase_self {κ α : Type} [BEq κ] [LawfulBEq κ]
    (l : List (κ × α)) (k : κ) : dictContains (dictErase l k) k = false := by
  simp only [dictContains, dictErase, List.any_eq_false]
  intro p hp
  have h := List.of_mem_filter hp
  simp only [bne_iff_ne, ne_eq] at h
  simp [h]

/-! ### Token model (`auth.py`) -/

/-- `TOKEN_EXPIRATION_DAYS` from `const.py`. -/
def TOKEN_EXPIRATION_DAYS : Nat := 365

/-- Seconds in a day, used to turn the validity window into seconds. -/
def daySeconds : Nat := 86400

/-- The JWT payload built by `ClientTokenManager._generate_token`. -/
structure Payload where
  client_id : String
  client_name : String
  exp : Nat
  iat : Nat
deriving DecidableEq, Repr

/-- A bearer token: either a well-formed JWT signed with some secret, or
an arbitrary malformed blob. -/
inductive Token where
  | signed (payload : Payload) (secret : String)
  | malformed (raw : String)
deriving DecidableEq, Repr

/-- Result taxonomy of `jwt.decode`: success, `ExpiredSignatureError`,
or `InvalidTokenError` (bad signature or bad structure). -/
inductive JwtResult where
  | ok (payload : Payload)
  | expired
  | invalid
deriving DecidableEq, Repr

/-- Symbolic `jwt.decode(token, secret, algorithms=["HS256"])` at time
`now`: a malformed blob or a wrong-secret signature is invalid; a
correctly signed token past its `exp` is expired; otherwise the payload
is returned. -/
def jwtDecode (t : Token) (secret : String) (now : Nat) : JwtResult :=
  match t with
  | .malformed _ => .invalid
  | .signed p s =>
    if s = secret then
      if p.exp ≤ now then .expired else .ok p
    else .invalid

/-- A stored client record (`auth.py`, `async_register_client`). -/
structure ClientRecord where
  client_id : String
  client_name : String
  token : Token
  created_at : String
deriving DecidableEq, Repr

/-- `ClientTokenManager`: the JWT secret plus the registered-clients
dict (`self._clients`). -/
structure ClientTokenManager where
  jwt_secret : String
  clients : List (String × ClientRecord)
deriving DecidableEq, Repr

/-- `ClientTokenManager._generate_token`: signs a payload for the given
client with the shared secret; `exp = now + 365 days`. -/
def ClientTokenManager.generate_token (m : ClientTokenManager)
    (client_id client_name : String) (now : Nat) : Token :=
  Token.signed
    { client_id := client_id
      client_name := client_name
      exp := now + TOKEN_EXPIRATION_DAYS * daySeconds
      iat := now }
    m.jwt_secret

/-- `ClientTokenManager.verify_token`: decode the JWT, then check that
the subject is still in the registered-clients dict; any failure
(expired, invalid, unregistered) yields `none`. -/
def ClientTokenManager.verify_token (m : ClientTokenManager)
    (token : Token) (now : Nat) : Option Payload :=
  match jwtDecode token m.jwt_secret now with
  | .ok payload =>
    if dictContains m.clients payload.client_id then some payload else none
  | .expired => none
  | .invalid => none

/-- `EntitySyncServer.verify_client_token` (`server.py` lines 86-89):
true exactly when `verify_token` returns a payload. -/
def ClientTokenManager.verify_client_token (m : ClientTokenManager)
    (token : Token) (now : Nat) : Bool :=
  (m.verify_token token now).isSome

/-- Response dict of `async_register_client`. -/
structure RegisterResponse where
  client_id : String
  client_name : String
  token : Token
deriving DecidableEq, Repr

/-- `ClientTokenManager.async_register_client`: pick the explicit id or
a freshly generated one (`freshId` stands for `secrets.token_urlsafe`),
issue a token, store the record, return id, name and token. -/
def ClientTokenManager.async_register_client (m : ClientTokenManager)
    (client_name : String) (client_id : Option String)
    (freshId : String) (now : Nat) : ClientTokenManager × RegisterResponse :=
  let cid := client_id.getD freshId
  let tok := m.generate_token cid client_name now
  let record : ClientRecord :=
    { client_id := cid, client_name := client_name, token := tok
      created_at := toString now }
  ({ m with clients := dictInsert m.clients cid record },
   { client_id := cid, client_name := client_name, token := tok })

/-- `ClientTokenManager.async_revoke_client`: delete the record if
present, report whether it existed. -/
def ClientTokenManager.async_revoke_client (m : ClientTokenManager)
    (client_id : String) : ClientTokenManager × Bool :=
  if dictContains m.clients client_id then
    ({ m with clients := dictErase m.clients client_id }, true)
  else
    (m, false)

/-- Module-level `verify_jwt_token` (`auth.py` lines 141-151): raw
signature-and-expiry verification with no membership check. -/
def verify_jwt_token (token : Token) (secret : String) (now : Nat) : Option Payload :=
  match jwtDecode token secret now with
  | .ok payload => some payload
  | .expired => none
  | .invalid => none

/-! ### Concrete fixtures used by counterexamples and witnesses -/

def secret0 : String := "server-secret"

def payload0 : Payload :=
  { client_id := "client-a", client_name := "Client A", exp := 1000, iat := 0 }

def token0 : Token := Token.signed payload0 secret0

def tokenBad : Token := Token.signed payload0 "other-secret"

def record0 : ClientRecord :=
  { client_id := "client-a", client_name := "Client A", token := token0
    created_at := "0" }

def mgrNone : ClientTokenManager := { jwt_secret := secret0, clients := [] }

def mgrA : ClientTokenManager :=
  { jwt_secret := secret0, clients := [("client-a", record0)] }

/-! ### Decomposition of a successful `verify_token` -/

theorem verify_token_eq_some {m : ClientTokenManager} {tok : Token} {now : Nat}
    {p : Payload} (hv : m.verify_token tok now = some p) :
    jwtDecode tok m.jwt_secret now = JwtResult.ok p ∧
    dictContains m.clients p.client_id = true := by
  cases h : jwtDecode tok m.jwt_secret now with
  | ok q =>
    simp only [ClientTokenManager.verify_token, h] at hv
    cases hc : dictContains m.clients q.client_id with
    | true =>
      simp only [hc, if_true] at hv
      obtain rfl : q = p := Option.some.inj hv
      exact ⟨rfl, hc⟩
    | false =>
      simp [hc] at hv
  | expired =>
    simp [ClientTokenManager.verify_token, h] at hv
  | invalid =>
    simp [ClientTokenManager.verify_token, h] at hv

/-- Claim C4 counterexample: a token whose signature verifies under the
server secret and which is unexpired is nevertheless rejected by
`verify_token` when its subject is not registered, so `verify_token`
does not check only signature and expiry — it also checks registration
membership itself, contrary to the claim. -/
theorem C4_counterexample_membership_checked :
    verify_jwt_token token0 secret0 10 = some payload0 ∧
    ClientTokenManager.verify_token mgrNone token0 10 = none := by
  constructor <;> decide

/-- Claim C4 (amended): `verify_token` checks signature, expiry AND
registration membership: it returns the payload exactly when the JWT
decodes successfully and the subject is registered, returns `none` on
an expired or malformed token, and the caller
(`verify_client_token`) layers no further check of its own. -/
theorem C4_verify_token_checks_sig_expiry_membership :
    ∀ (m : ClientTokenManager) (tok : Token) (now : Nat),
      (∀ p, m.verify_token tok now = some p ↔
        (jwtDecode tok m.jwt_secret now = JwtResult.ok p ∧
         dictContains m.clients p.client_id = true)) ∧
      (jwtDecode tok m.jwt_secret now = JwtResult.expired →
        m.verify_token tok now = none) ∧
      (jwtDecode tok m.jwt_secret now = JwtResult.invalid →
        m.verify_token tok now = none) ∧
      m.verify_client_token tok now = (m.verify_token tok now).isSome := by
  intro m tok now
  refine ⟨?_, ?_, ?_, rfl⟩
  · intro p
    constructor
    · exact fun hv => verify_token_eq_some hv
    · rintro ⟨hdec, hmem⟩
      simp [ClientTokenManager.verify_token, hdec, hmem]
  · intro h
    simp [ClientTokenManager.verify_token, h]
  · intro h
    simp [ClientTokenManager.verify_token, h]

/-- Witness for the amended C4 theorem: a token signed with the wrong
secret is rejected at a concrete input. -/
theorem C4_verify_token_checks_sig_expiry_membership_witness :
    ClientTokenManager.verify_token mgrA tokenBad 10 = none :=
  (C4_verify_token_checks_sig_expiry_membership mgrA tokenBad 10).2.2.1 (by decide)

/-- Claim C5: after `revoke(client_id)` succeeds, `verify_token`
(verification combined with the membership check) rejects every
previously-valid token whose subject is that client, even though raw
signature verification (`verify_jwt_token`) of the same token still
succeeds. -/
theorem C5_revoke_rejects_previously_valid (m : ClientTokenManager)
    (client_id : String) (tok : Token) (now : Nat) (p : Payload)
    (hv : m.verify_token tok now = some p) (hid : p.client_id = client_id) :
    (m.async_revoke_client client_id).2 = true ∧
    (m.async_revoke_client client_id).1.verify_token tok now = none ∧
    verify_jwt_token tok (m.async_revoke_client client_id).1.jwt_secret now = some p := by
  obtain ⟨hdec, hmem⟩ := verify_token_eq_some hv
  subst hid
  refine ⟨?_, ?_, ?_⟩
  · simp [ClientTokenManager.async_revoke_client, hmem]
  · simp [ClientTokenManager.async_revoke_client, hmem,
      ClientTokenManager.verify_token, hdec, dictContains_dictErase_self]
  · simp [ClientTokenManager.async_revoke_client, hmem, verify_jwt_token, hdec]

/-- Witness for C5 at a concrete registered client. -/
theorem C5_revoke_rejects_previously_valid_witness :
    (mgrA.async_revoke_client "client-a").2 = true ∧
    (mgrA.async_revoke_client "client-a").1.verify_token token0 10 = none ∧
    verify_jwt_token token0 (mgrA.async_revoke_client "client-a").1.jwt_secret 10
      = some payload0 :=
  C5_revoke_rejects_previously_valid mgrA "client-a" token0 10 payload0
    (by decide) (by decide)

/-! ### Server (`server.py`) -/

/-- The dict produced by `EntitySyncServer._state_to_dict`; also the
shape of the `data` field of a `state_changed` frame. -/
structure EntitySnapshot where
  entity_id : String
  state : String
  attributes : List (String × String)
  last_changed : String
  last_updated : String
deriving DecidableEq, Repr

/-- The result dict of `EntitySyncServer.call_service`; absent dict
keys are `none`. -/
structure ServiceResult where
  success : Bool
  error : Option String := none
  entity_id : Option String := none
deriving DecidableEq, Repr

/-- Outcome of the awaited host action
(`hass.services.async_call`): normal return or a raised exception. -/
inductive HostOutcome where
  | ok
  | raise (msg : String)
deriving DecidableEq, Repr

/-- The exposure check of `EntitySyncServer.call_service`:
`service_data.get("entity_id") not in exposed_entities` means the call
is rejected; a missing `entity_id` key never matches the exposure
list. -/
def entityExposed (exposed : List String)
    (service_data : List (String × String)) : Bool :=
  match dictGet service_data "entity_id" with
  | some e => exposed.contains e
  | none => false

/-- `EntitySyncServer.call_service` (`server.py` lines 144-187): read
the target entity from `service_data`, reject when it is not in the
exposure list (the host is not invoked), otherwise invoke the host
action and report its outcome.  The returned `Bool` records whether the
host action was invoked. -/
def call_service (exposed : List String) (domain service : String)
    (service_data : List (String × String))
    (host : String → String → List (String × String) → HostOutcome) :
    ServiceResult × Bool :=
  if entityExposed exposed service_data then
    match host domain service service_data with
    | .ok => ({ success := true, entity_id := dictGet service_data "entity_id" }, true)
    | .raise msg => ({ success := false, error := some msg }, true)
  else
    ({ success := false, error := some "Entity not exposed" }, false)

/-- Control frames the server accepts from an authenticated duplex
session (`handle_websocket`, `elif authenticated:` branch). -/
inductive WsFrame where
  | get_entities
  | subscribe (entity_id : String)
  | call_service (request_id : String) (domain service : String)
      (service_data : List (String × String))
  | other
deriving DecidableEq, Repr

/-- Frames the server can send back over the duplex channel. -/
inductive WsReply where
  | auth_ok
  | auth_failed
  | entities (data : List String)
  | state_changed (entity_id : String) (data : EntitySnapshot)
  | service_response (request_id : String) (result : ServiceResult)
  | error_msg (message : String)
deriving DecidableEq, Repr

/-- Dispatch of one frame on an authenticated session
(`server.py` lines 215-248).  `hostStates` models
`hass.states.get` composed with `_state_to_dict` (the body of
`get_entity_state`), `host` the service invoker.  Returns the replies
sent on this session and whether the host action was invoked. -/
def handleAuthedMessage (exposed : List String)
    (hostStates : String → Option EntitySnapshot)
    (host : String → String → List (String × String) → HostOutcome)
    (frame : WsFrame) : List WsReply × Bool :=
  match frame with
  | .get_entities => ([.entities exposed], false)
  | .subscribe eid =>
    match hostStates eid with
    | some s => ([.state_changed eid s], false)
    | none => ([], false)
  | .call_service rid dom svc sd =>
    let r := call_service exposed dom svc sd host
    ([.service_response rid r.1], r.2)
  | .other => ([], false)

/-! ### Broadcast (`server.py` lines 124-142)

Sessions are identified by numbers; `sendOk s = false` means
`client.send_json` raised on session `s`.  The loop body appends
failing sessions to `disconnected_clients` and keeps going; after the
sweep each collected session is discarded from the registry. -/

/-- The `for client in self.clients` send loop: returns the sessions
that received the message and the collected failing sessions, in
iteration order. -/
def broadcastSend : List Nat → (Nat → Bool) → List Nat × List Nat
  | [], _ => ([], [])
  | c :: rest, sendOk =>
    let r := broadcastSend rest sendOk
    if sendOk c then (c :: r.1, r.2) else (r.1, c :: r.2)

/-- The `for client in disconnected_clients: self.clients.discard(client)`
sweep. -/
def discardAll (registry : List Nat) (failed : List Nat) : List Nat :=
  match failed with
  | [] => registry
  | c :: rest => discardAll (registry.filter (fun x => x != c)) rest

/-- `EntitySyncServer.broadcast_state_change`: best-effort fan-out,
prune-on-failure.  Returns the sessions the message was delivered to
and the session registry after the sweep. -/
def broadcast_state_change (clients : List Nat) (sendOk : Nat → Bool) :
    List Nat × List Nat :=
  let r := broadcastSend clients sendOk
  (r.1, discardAll clients r.2)

/-! ### HTTP views (`server.py`) -/

/-- An HTTP response: 401, a JSON body, or an error status. -/
inductive HttpResponse (α : Type) where
  | unauthorized
  | ok (body : α)
  | serverError (message : String)
deriving DecidableEq, Repr

/-- `EntitySyncCallServiceView.post`: bearer-token gate through
`verify_client_token`, then delegate to `call_service`.  The `bearer`
argument is `none` for a missing or malformed Authorization header.
The returned `Bool` records whether the host action was invoked. -/
def callServiceView (m : ClientTokenManager) (bearer : Option Token) (now : Nat)
    (exposed : List String) (domain service : String)
    (service_data : List (String × String))
    (host : String → String → List (String × String) → HostOutcome) :
    HttpResponse ServiceResult × Bool :=
  match bearer with
  | none => (.unauthorized, false)
  | some tok =>
    if m.verify_client_token tok now then
      let r := call_service exposed domain service service_data host
      (.ok r.1, r.2)
    else
      (.unauthorized, false)

/-- `EntitySyncRegisterClientView.post`: the bearer token is checked
with the module-level `verify_jwt_token` against the shared server
secret (signature and expiry only — no registration-membership check),
then the client is registered and id, name and token are returned. -/
def registerClientView (m : ClientTokenManager) (bearer : Option Token)
    (client_name : String) (freshId : String) (now : Nat) :
    ClientTokenManager × HttpResponse RegisterResponse :=
  match bearer with
  | none => (m, .unauthorized)
  | some tok =>
    match verify_jwt_token tok m.jwt_secret now with
    | none => (m, .unauthorized)
    | some _ =>
      let r := m.async_register_client client_name none freshId now
      (r.1, .ok r.2)

/-- The names `server.py` imports from `const.py` (lines 17-42); every
module-level name the view bodies use must resolve against this list
(or be defined in `server.py` itself). -/
def serverConstImports : List String :=
  ["DOMAIN", "CONF_JWT_SECRET", "CONF_EXPOSED_ENTITIES", "API_BASE_PATH",
   "API_WEBSOCKET_PATH", "API_ENTITIES_PATH", "API_AUTH_PATH",
   "API_CALL_SERVICE_PATH", "API_REGISTER_CLIENT_PATH",
   "API_REVOKE_CLIENT_PATH", "API_LIST_CLIENTS_PATH", "WS_TYPE_AUTH",
   "WS_TYPE_STATE_CHANGED", "WS_TYPE_SUBSCRIBE", "WS_TYPE_GET_ENTITIES",
   "WS_TYPE_CALL_SERVICE", "WS_TYPE_SERVICE_RESPONSE", "ATTR_ENTITY_ID",
   "ATTR_SERVICE", "ATTR_SERVICE_DATA", "ATTR_DOMAIN", "ATTR_CLIENT_ID",
   "ATTR_CLIENT_NAME", "ATTR_TOKEN"]

/-- One entry of the `safe_clients` dict built by
`EntitySyncListClientsView.get` (`server.py` lines 472-478).  The loop
body reads the module-level names `ATTR_CLIENT_ID`, `ATTR_CLIENT_NAME`
and `ATTR_CREATED_AT`; a name that does not resolve raises `NameError`
when the body runs. -/
def safeClientEntry (c : ClientRecord) : Except String (String × String × String) :=
  if serverConstImports.contains "ATTR_CLIENT_ID"
      && serverConstImports.contains "ATTR_CLIENT_NAME"
      && serverConstImports.contains "ATTR_CREATED_AT" then
    .ok (c.client_id, c.client_name, c.created_at)
  else
    .error "NameError"

/-- The body of `EntitySyncListClientsView.get` after the bearer-token
gate: build the token-free `safe_clients` dict by running the loop body
once per registered client. -/
def listClientsBody (m : ClientTokenManager) :
    Except String (List (String × (String × String × String))) :=
  m.clients.mapM (fun kv => (safeClientEntry kv.2).map (fun e => (kv.1, e)))

/-! ### Fixtures for the server-side claims -/

def snapB : EntitySnapshot :=
  { entity_id := "light.b", state := "on", attributes := []
    last_changed := "t0", last_updated := "t0" }

def hostStates0 : String → Option EntitySnapshot :=
  fun e => if e = "light.b" then some snapB else none

def hostOk : String → String → List (String × String) → HostOutcome :=
  fun _ _ _ => HostOutcome.ok

/-! ### Dict-insert membership -/

theorem dictContains_dictInsert_self {κ α : Type} [BEq κ] [LawfulBEq κ]
    (l : List (κ × α)) (k : κ) (v : α) :
    dictContains (dictInsert l k v) k = true := by
  simp [dictContains, dictInsert, List.any_append]

/-! ### Claim C1 -/

/-- Claim C1: any `call_service` request whose `service_data` targets an
entity not in the exposure list gets a result with `success = false`,
and the host action is never invoked — on the core operation, on the
duplex-channel route (which answers with a `service_response` carrying
the request id), and on the HTTP call-service view. -/
theorem C1_unexposed_call_service_fails_without_host (m : ClientTokenManager)
    (bearer : Token) (now : Nat) (exposed : List String)
    (domain service rid e : String) (service_data : List (String × String))
    (hostStates : String → Option EntitySnapshot)
    (host : String → String → List (String × String) → HostOutcome)
    (hget : dictGet service_data "entity_id" = some e)
    (hnotin : exposed.contains e = false)
    (hauth : m.verify_client_token bearer now = true) :
    call_service exposed domain service service_data host
      = ({ success := false, error := some "Entity not exposed" }, false) ∧
    handleAuthedMessage exposed hostStates host
        (.call_service rid domain service service_data)
      = ([.service_response rid
            { success := false, error := some "Entity not exposed" }], false) ∧
    callServiceView m (some bearer) now exposed domain service service_data host
      = (.ok { success := false, error := some "Entity not exposed" }, false) := by
  have hne : entityExposed exposed service_data = false := by
    unfold entityExposed
    rw [hget]
    exact hnotin
  have h1 : call_service exposed domain service service_data host
      = ({ success := false, error := some "Entity not exposed" }, false) := by
    simp [call_service, hne]
  refine ⟨h1, ?_, ?_⟩
  · simp [handleAuthedMessage, h1]
  · simp [callServiceView, hauth, h1]

/-- Witness for C1: a concrete request targeting `light.b` while only
`light.a` is exposed. -/
theorem C1_unexposed_call_service_fails_without_host_witness :
    call_service ["light.a"] "light" "turn_on" [("entity_id", "light.b")] hostOk
      = ({ success := false, error := some "Entity not exposed" }, false) ∧
    handleAuthedMessage ["light.a"] hostStates0 hostOk
        (.call_service "req-1" "light" "turn_on" [("entity_id", "light.b")])
      = ([.service_response "req-1"
            { success := false, error := some "Entity not exposed" }], false) ∧
    callServiceView mgrA (some token0) 10 ["light.a"] "light" "turn_on"
        [("entity_id", "light.b")] hostOk
      = (.ok { success := false, error := some "Entity not exposed" }, false) :=
  C1_unexposed_call_service_fails_without_host mgrA token0 10 ["light.a"]
    "light" "turn_on" "req-1" "light.b" [("entity_id", "light.b")]
    hostStates0 hostOk (by decide) (by decide) (by decide)

/-! ### Claim C2 -/

theorem broadcastSend_single_failure (clients : List Nat) (k : Nat)
    (sendOk : Nat → Bool) (hk : ∀ s, sendOk s = false ↔ s = k) :
    broadcastSend clients sendOk
      = (clients.filter (fun s => s != k), clients.filter (fun s => s == k)) := by
  induction clients with
  | nil => rfl
  | cons c rest ih =>
    simp only [broadcastSend, ih]
    cases h : sendOk c with
    | true =>
      have hck : ¬c = k := fun e => by
        rw [(hk c).mpr e] at h
        cases h
      simp [List.filter_cons, h, hck]
    | false =>
      have hck : c = k := (hk c).mp h
      simp [List.filter_cons, h, hck]

theorem discardAll_all_eq (k : Nat) :
    ∀ (failed : List Nat), (∀ x ∈ failed, x = k) → failed ≠ [] →
      ∀ (reg : List Nat), discardAll reg failed = reg.filter (fun x => x != k) := by
  intro failed
  induction failed with
  | nil => intro _ hne _; exact absurd rfl hne
  | cons c rest ih =>
    intro hall _ reg
    have hc : c = k := hall c (List.mem_cons_self c rest)
    subst hc
    cases rest with
    | nil => rfl
    | cons d rest2 =>
      have := ih (fun x hx => hall x (List.mem_cons_of_mem c hx)) (by simp)
        (reg.filter (fun x => x != c))
      simpa [discardAll, List.filter_filter] using this

/-- Claim C2: broadcasting to sessions where exactly session `k` fails
delivery still delivers the message to every session other than `k`
(in iteration order), and the registry after the sweep is the original
set minus `k`; the failure never aborts delivery to the others. -/
theorem C2_broadcast_delivers_and_prunes (clients : List Nat) (k : Nat)
    (sendOk : Nat → Bool) (hk : ∀ s, sendOk s = false ↔ s = k)
    (hmem : k ∈ clients) :
    (broadcast_state_change clients sendOk).1
      = clients.filter (fun s => s != k) ∧
    (broadcast_state_change clients sendOk).2
      = clients.filter (fun s => s != k) := by
  have hsend := broadcastSend_single_failure clients k sendOk hk
  have h1 : (broadcast_state_change clients sendOk).1
      = clients.filter (fun s => s != k) := by
    unfold broadcast_state_change
    rw [hsend]
  have h2 : (broadcast_state_change clients sendOk).2
      = discardAll clients (clients.filter (fun s => s == k)) := by
    unfold broadcast_state_change
    rw [hsend]
  refine ⟨h1, ?_⟩
  rw [h2]
  apply discardAll_all_eq
  · intro x hx
    simpa using (List.mem_filter.mp hx).2
  · intro hnil
    have hkin : k ∈ clients.filter (fun s => s == k) :=
      List.mem_filter.mpr ⟨hmem, by simp⟩
    rw [hnil] at hkin
    cases hkin

/-- Witness for C2: three sessions, session 2 fails; 1 and 3 still get
the message and 2 is pruned. -/
theorem C2_broadcast_delivers_and_prunes_witness :
    (broadcast_state_change [1, 2, 3] (fun s => s != 2)).1 = [1, 3] ∧
    (broadcast_state_change [1, 2, 3] (fun s => s != 2)).2 = [1, 3] := by
  have h := C2_broadcast_delivers_and_prunes [1, 2, 3] 2 (fun s => s != 2)
    (fun s => by simp) (by decide)
  exact ⟨by rw [h.1]; decide, by rw [h.2]; decide⟩

/-! ### Claim C6 -/

/-- Claim C6 (code bug): the list-clients view body reads the
module-level name `ATTR_CREATED_AT`, which `server.py` never imports
from `const.py`, so as soon as one client is registered the loop body
raises `NameError` instead of returning the token-free client dict. -/
theorem C6_list_clients_raises_name_error :
    serverConstImports.contains "ATTR_CREATED_AT" = false ∧
    listClientsBody mgrA = Except.error "NameError" :=
  ⟨by decide, rfl⟩

/-! ### Claim C9 -/

/-- Claim C9: an authenticated `subscribe` frame is answered with the
current host state of the named entity without any exposure-list check
(even for an entity outside the exposure list), and when the host has
no state for the entity no reply frame is sent at all. -/
theorem C9_subscribe_ignores_exposure_list (exposed : List String)
    (hostStates : String → Option EntitySnapshot)
    (host : String → String → List (String × String) → HostOutcome)
    (eid : String) (_hnot : exposed.contains eid = false) :
    (∀ s, hostStates eid = some s →
      handleAuthedMessage exposed hostStates host (.subscribe eid)
        = ([.state_changed eid s], false)) ∧
    (hostStates eid = none →
      handleAuthedMessage exposed hostStates host (.subscribe eid)
        = ([], false)) := by
  constructor
  · intro s hs
    simp [handleAuthedMessage, hs]
  · intro hs
    simp [handleAuthedMessage, hs]

/-- Witness for C9: `light.b` is not exposed, yet subscribing to it
returns its host state. -/
theorem C9_subscribe_ignores_exposure_list_witness :
    handleAuthedMessage ["light.a"] hostStates0 hostOk (.subscribe "light.b")
      = ([.state_changed "light.b" snapB], false) :=
  (C9_subscribe_ignores_exposure_list ["light.a"] hostStates0 hostOk
    "light.b" (by decide)).1 snapB (by decide)

/-! ### Claim C10 -/

/-- Claim C10: the register-client view accepts any bearer token whose
signature verifies under the shared server secret and which is
unexpired — no registration-membership check is made, so per-client
tokens of revoked clients pass — and every such request registers a
fresh client and returns its id, name and newly issued token. -/
theorem C10_register_skips_membership_check (m : ClientTokenManager)
    (tok : Token) (p : Payload) (client_name freshId : String) (now : Nat)
    (hv : verify_jwt_token tok m.jwt_secret now = some p) :
    (registerClientView m (some tok) client_name freshId now).2
      = .ok { client_id := freshId, client_name := client_name,
              token := m.generate_token freshId client_name now } ∧
    dictContains
      (registerClientView m (some tok) client_name freshId now).1.clients
      freshId = true := by
  constructor
  · simp [registerClientView, hv, ClientTokenManager.async_register_client]
  · simp [registerClientView, hv, ClientTokenManager.async_register_client,
      dictContains_dictInsert_self]

/-- Witness for C10: `token0` belongs to subject `client-a`, which is
not registered in `mgrNone` (a revoked client), yet registration
succeeds. -/
theorem C10_register_skips_membership_check_witness :
    (registerClientView mgrNone (some token0) "New Client" "fresh-id" 10).2
      = .ok { client_id := "fresh-id", client_name := "New Client",
              token := mgrNone.generate_token "fresh-id" "New Client" 10 } ∧
    dictContains
      (registerClientView mgrNone (some token0) "New Client" "fresh-id" 10).1.clients
      "fresh-id" = true :=
  C10_register_skips_membership_check mgrNone token0 payload0
    "New Client" "fresh-id" 10 (by decide)

/-! ### Client (`client.py`) -/

/-- Outcome of the awaited response correlation in
`async_call_service` over the duplex channel: a `service_response`
carrying the matching request id arrived, the 10-second wait expired
(`asyncio.TimeoutError`), or the send itself raised. -/
inductive WaitOutcome where
  | response (result : ServiceResult)
  | timeout
  | sendError (msg : String)
deriving DecidableEq, Repr

/-- `self._pending_requests.pop(request_id, None)` on the key set of
the pending-request table. -/
def pendingPop (pending : List String) (request_id : String) : List String :=
  pending.filter (fun x => x != request_id)

/-- The duplex-channel path of `EntitySyncClient.async_call_service`
(`client.py` lines 210-236) acting on the key set of the
pending-request table: the fresh `request_id` is inserted, then the
response path pops it in `_handle_message`, and both the timeout and
the send-error paths pop it in their except branches. -/
def async_call_service_ws (pending : List String) (request_id : String)
    (outcome : WaitOutcome) : List String × ServiceResult :=
  let pending1 := pending ++ [request_id]
  match outcome with
  | .response r => (pendingPop pending1 request_id, r)
  | .timeout =>
    (pendingPop pending1 request_id, { success := false, error := some "Timeout" })
  | .sendError msg =>
    (pendingPop pending1 request_id, { success := false, error := some msg })

/-! ### Claim C3 -/

/-- Claim C3: when no matching `service_response` arrives within the
10-second wait, `async_call_service` returns
`success = false, error = "Timeout"` and the request id is removed
from the pending-request table, leaving the table exactly as before
the call (no leaked entry).  The hypothesis says the generated UUID is
fresh. -/
theorem C3_timeout_resolves_and_removes_entry (pending : List String)
    (request_id : String) (h : ∀ x ∈ pending, x ≠ request_id) :
    (async_call_service_ws pending request_id .timeout).2
      = { success := false, error := some "Timeout" } ∧
    (async_call_service_ws pending request_id .timeout).1 = pending ∧
    request_id ∉ (async_call_service_ws pending request_id .timeout).1 := by
  have h2 : pending.filter (fun x => x != request_id) = pending :=
    List.filter_eq_self.mpr (fun a ha => by simpa using h a ha)
  have htab : (async_call_service_ws pending request_id .timeout).1 = pending := by
    unfold async_call_service_ws pendingPop
    simp [List.filter_append, h2]
  refine ⟨rfl, htab, ?_⟩
  rw [htab]
  exact fun hmem => h request_id hmem rfl

/-- Witness for C3 with a one-entry pending table and a fresh id. -/
theorem C3_timeout_resolves_and_removes_entry_witness :
    (async_call_service_ws ["req-0"] "req-1" .timeout).2
      = { success := false, error := some "Timeout" } ∧
    (async_call_service_ws ["req-0"] "req-1" .timeout).1 = ["req-0"] ∧
    "req-1" ∉ (async_call_service_ws ["req-0"] "req-1" .timeout).1 :=
  C3_timeout_resolves_and_removes_entry ["req-0"] "req-1" (by decide)

/-! ### Claims C7 (reconnect scheduling) -/

/-- How `_connect` can end: the `auth_ok` reply, a reply of any other
type (the `auth_failed` branch), or an exception anywhere in the try
block (connection refused, send failure, closed channel, ...). -/
inductive ConnectOutcome where
  | authOk
  | authRejected
  | connectError (msg : String)
deriving DecidableEq, Repr

/-- Connection-management state after one step: `_connected`, the
delay of the reconnect task created by this step (if any), and whether
the listen loop was started. -/
structure ClientConnState where
  connected : Bool
  reconnectDelay : Option Nat
  listening : Bool
deriving DecidableEq, Repr

/-- `EntitySyncClient._connect` (`client.py` lines 83-115): `auth_ok`
connects and starts the listen loop; any other auth reply just records
the failure (no reconnect task is created); an exception records the
failure and creates a reconnect task with the fixed 30-second delay of
`_reconnect_later`. -/
def connectStep : ConnectOutcome → ClientConnState
  | .authOk => { connected := true, reconnectDelay := none, listening := true }
  | .authRejected => { connected := false, reconnectDelay := none, listening := false }
  | .connectError _ =>
    { connected := false, reconnectDelay := some 30, listening := false }

/-- The `finally` block of `_listen_for_messages` (`client.py` lines
150-152): on any exit of the listen loop the client is marked
disconnected and one reconnect task with the fixed 30-second delay is
created. -/
def listenLoopExit : ClientConnState :=
  { connected := false, reconnectDelay := some 30, listening := false }

/-- Claim C7 counterexample: a failed authentication is a failure
during connect, yet `connectStep` schedules no reconnect for it — the
claim that every connect failure schedules a 30-second reconnect is
false on the `auth_failed` branch. -/
theorem C7_counterexample_auth_failure_no_reconnect :
    (connectStep .authRejected).connected = false ∧
    (connectStep .authRejected).reconnectDelay ≠ some 30 := by
  exact ⟨rfl, by decide⟩

/-- Claim C7 (amended): an exception during connect and any listen-loop
exit mark the client disconnected and schedule exactly one reconnect
after a fixed 30-second delay (no exponential backoff, no jitter); a
failed-authentication reply, however, only marks the client
disconnected and schedules no reconnect. -/
theorem C7_fixed_delay_reconnect :
    (∀ msg, connectStep (.connectError msg)
      = { connected := false, reconnectDelay := some 30, listening := false }) ∧
    listenLoopExit
      = { connected := false, reconnectDelay := some 30, listening := false } ∧
    connectStep .authRejected
      = { connected := false, reconnectDelay := none, listening := false } :=
  ⟨fun _ => rfl, rfl, rfl⟩

/-! ### Claim C8 (entity cache and aliasing)

The client stores the parsed `data` dict of a `state_changed` frame in
`self._entity_states` and `get_entity_state` returns that dict object
itself, not a copy.  To express Python object identity the model uses
an explicit heap: `entityRefs` maps entity ids to heap addresses, the
heap maps addresses to snapshot contents. -/

abbrev Addr := Nat

structure ClientCache where
  heap : List (Addr × EntitySnapshot)
  nextAddr : Addr
  entityRefs : List (String × Addr)
deriving DecidableEq, Repr

/-- The `state_changed` branch of `_handle_message` (`client.py` lines
158-169): `json.loads` allocated a fresh dict for `data`, and the
assignment rebinds the cache key to that fresh object. -/
def handle_state_changed (c : ClientCache) (entity_id : String)
    (data : EntitySnapshot) : ClientCache :=
  { heap := dictInsert c.heap c.nextAddr data
    nextAddr := c.nextAddr + 1
    entityRefs := dictInsert c.entityRefs entity_id c.nextAddr }

/-- `EntitySyncClient.get_entity_state` (`client.py` lines 198-200):
returns the stored dict object (a reference, not a copy). -/
def get_entity_state (c : ClientCache) (entity_id : String) : Option Addr :=
  dictGet c.entityRefs entity_id

/-- The snapshot contents currently stored in the cache for an entity
(the dereference of the stored object). -/
def cachedSnapshot (c : ClientCache) (entity_id : String) : Option EntitySnapshot :=
  (get_entity_state c entity_id).bind (fun a => dictGet c.heap a)

/-- In-place mutation of one heap object. -/
def heapMutate (c : ClientCache) (addr : Addr)
    (f : EntitySnapshot → EntitySnapshot) : ClientCache :=
  { c with heap := c.heap.map (fun p => if p.1 == addr then (p.1, f p.2) else p) }

/-- The optimistic update of `SyncedLight.async_turn_on` (`light.py`
lines 112-127): mutate the snapshot object the entity holds
(`self._entity_data`, obtained from `get_entity_state`) in place:
`state = "on"` plus a `brightness` passthrough when given. -/
def light_async_turn_on (c : ClientCache) (addr : Addr)
    (brightness : Option String) : ClientCache :=
  heapMutate c addr (fun s =>
    let s1 := { s with state := "on" }
    match brightness with
    | some b => { s1 with attributes := dictInsert s1.attributes "brightness" b }
    | none => s1)

def snapOff : EntitySnapshot :=
  { entity_id := "light.kitchen", state := "off", attributes := []
    last_changed := "t0", last_updated := "t0" }

def cache0 : ClientCache := { heap := [], nextAddr := 0, entityRefs := [] }

def cache1 : ClientCache := handle_state_changed cache0 "light.kitchen" snapOff

def cache2 : ClientCache := light_async_turn_on cache1 0 (some "200")

/-- Claim C8 counterexample: after a `state_changed` frame stores the
`light.kitchen` snapshot, the light entity holds that very object
(address 0), and its optimistic `async_turn_on` update — not a
`state_changed` frame — changes the snapshot stored in the cache. -/
theorem C8_counterexample_optimistic_update_mutates_cache :
    get_entity_state cache1 "light.kitchen" = some 0 ∧
    cachedSnapshot cache1 "light.kitchen" = some snapOff ∧
    cachedSnapshot cache2 "light.kitchen"
      = some { entity_id := "light.kitchen", state := "on",
               attributes := [("brightness", "200")],
               last_changed := "t0", last_updated := "t0" } ∧
    cachedSnapshot cache2 "light.kitchen" ≠ cachedSnapshot cache1 "light.kitchen" :=
  ⟨rfl, rfl, rfl, by decide⟩

/-- Claim C8 (amended): the cache mapping from entity_id to snapshot
object is rebound only by `state_changed` handling — the light entity's
optimistic update leaves `entityRefs` (and the allocation counter)
untouched — but `get_entity_state` returns the stored object by
reference, and the optimistic update mutates that shared object in
place, so the snapshot contents stored in the cache do change outside
`state_changed` handling. -/
theorem C8_mapping_rebound_only_by_state_changed :
    (∀ (c : ClientCache) (addr : Addr) (b : Option String),
      (light_async_turn_on c addr b).entityRefs = c.entityRefs ∧
      (light_async_turn_on c addr b).nextAddr = c.nextAddr) ∧
    (∀ (c : ClientCache) (eid : String) (d : EntitySnapshot),
      (handle_state_changed c eid d).entityRefs
        = dictInsert c.entityRefs eid c.nextAddr) ∧
    cachedSnapshot cache2 "light.kitchen" ≠ cachedSnapshot cache1 "light.kitchen" :=
  ⟨fun _ _ _ => ⟨rfl, rfl⟩, fun _ _ _ => rfl, by decide⟩

end HASync
